import Mathlib

/-!
Verification of the syscall ABI bridge (`src/syscalls.rs`, `src/instantiate.rs`).

Machine integers are modelled as `Int` with explicit reduction modulo `2 ^ w`;
Rust `as` casts between integer types are `asCast` below (truncate to the
target width, reinterpret under the target signedness).
-/

namespace EnarxWasi

/-- Semantics of a Rust `as` cast to an integer type of width `w` whose
signedness is `sgn`: reduce modulo `2 ^ w`, then reinterpret the residue
under the target signedness. -/
def asCast (w : Nat) (sgn : Bool) (x : Int) : Int :=
  let u := x % (2 ^ w : Int)
  if sgn then (if 2 ^ (w - 1) ≤ u then u - 2 ^ w else u) else u

/-- The native scalar types given ABI conversions by the `cast32!` and
`cast64!` macro invocations in `src/syscalls.rs`. -/
inductive NativeType
  | i8 | i16 | i32 | u8 | u16 | u32 | i64 | u64
deriving DecidableEq, Fintype

/-- Bit width of a native scalar type. -/
def NativeType.width : NativeType → Nat
  | .i8 => 8
  | .i16 => 16
  | .i32 => 32
  | .u8 => 8
  | .u16 => 16
  | .u32 => 32
  | .i64 => 64
  | .u64 => 64

/-- Signedness of a native scalar type. -/
def NativeType.sgn : NativeType → Bool
  | .i8 | .i16 | .i32 | .i64 => true
  | .u8 | .u16 | .u32 | .u64 => false

/-- Smallest representable value of a native scalar type. -/
def NativeType.minVal : NativeType → Int
  | .i8 => -128
  | .i16 => -32768
  | .i32 => -2147483648
  | .i64 => -9223372036854775808
  | .u8 | .u16 | .u32 | .u64 => 0

/-- Largest representable value of a native scalar type. -/
def NativeType.maxVal : NativeType → Int
  | .i8 => 127
  | .i16 => 32767
  | .i32 => 2147483647
  | .i64 => 9223372036854775807
  | .u8 => 255
  | .u16 => 65535
  | .u32 => 4294967295
  | .u64 => 18446744073709551615

/-- `x` is a representable value of the native type `t`. -/
def NativeType.inRange (t : NativeType) (x : Int) : Prop :=
  t.minVal ≤ x ∧ x ≤ t.maxVal

instance (t : NativeType) (x : Int) : Decidable (t.inRange x) := by
  unfold NativeType.inRange; infer_instance

/-- `AbiRet::convert` from the `cast32!`/`cast64!` macros: `self as i32` for
the six types of width at most 32, `self as i64` for the two 64-bit types. -/
def abiRetConvert : NativeType → Int → Int
  | .i8, x | .i16, x | .i32, x | .u8, x | .u16, x | .u32, x => asCast 32 true x
  | .i64, x | .u64, x => asCast 64 true x

/-- `AbiParam::convert` from the `cast32!`/`cast64!` macros: `param as $i`,
a cast of the incoming ABI word to the native type. -/
def abiParamConvert (t : NativeType) (param : Int) : Int :=
  asCast t.width t.sgn param

/-- Cranelift codegen word types used by the bridge. -/
inductive WordTy
  | I32 | I64
deriving DecidableEq, Fintype

/-- `codegen_ty()` from the `cast32!`/`cast64!` macros: `I32` for the six
types handled by `cast32!`, `I64` for the two handled by `cast64!`. -/
def NativeType.codegen_ty : NativeType → WordTy
  | .i8 | .i16 | .i32 | .u8 | .u16 | .u32 => .I32
  | .i64 | .u64 => .I64

/-- Width of the `Abi` associated type of each native type: `i32` (a 32-bit
word) for the `cast32!` types, `i64` (a 64-bit word) for the `cast64!`
types. This is the word the generated shim actually decodes and encodes. -/
def NativeType.abiWord : NativeType → WordTy
  | .i8 | .i16 | .i32 | .u8 | .u16 | .u32 => .I32
  | .i64 | .u64 => .I64

/-- Return type of a syscall: either a native scalar or the unit type `()`,
whose `AbiRet` impl has `codegen_tys() = Vec::new()`. -/
inductive RetType
  | unit
  | native (t : NativeType)
deriving DecidableEq

/-- `codegen_tys()` of a return type: empty for `()`, a singleton
`codegen_ty` for a native scalar. -/
def RetType.codegen_tys : RetType → List WordTy
  | .unit => []
  | .native t => [t.codegen_ty]

/-- The list of ABI words the generated shim encodes for a return type:
none for `()` (whose `Abi` type is `()`), one `abiWord` otherwise. -/
def RetType.abiWords : RetType → List WordTy
  | .unit => []
  | .native t => [t.abiWord]

/-- The guest-visible error signal type, `wasm32::__wasi_errno_t` (a `u16`
in the external `wasi-common` crate). -/
abbrev Errno := Nat

/-- The "invalid argument" signal (`wasm32::__WASI_EINVAL` of the external
`wasi-common` crate). -/
def __WASI_EINVAL : Errno := 28

/-- The "operation not supported" signal (`wasm32::__WASI_ENOSYS` of the
external `wasi-common` crate). -/
def __WASI_ENOSYS : Errno := 52

/-- The per-instance capability context (`WasiCtx` of the external
`wasi-common` crate); opaque to the bridge, modelled as a token. -/
structure WasiCtx where
  id : Nat
deriving DecidableEq

/-- The `definition` field of a memory export: current base pointer and
current byte length. -/
structure MemoryDefinition where
  base : Nat
  current_length : Nat
deriving DecidableEq

/-- `wasmtime_runtime::Export`, restricted to the shapes the bridge
inspects: a memory export (with its definition) or any other kind. -/
inductive RuntimeExport
  | Memory (definition : MemoryDefinition)
  | Other
deriving DecidableEq

/-- `VMContext` as the bridge sees it: the `host_state()` downcast target
(`some ctx` when the instance-private state is a `WasiCtx`, `none`
otherwise) and the global export table consulted by
`lookup_global_export`. -/
structure VMContext where
  host_state : Option WasiCtx
  global_exports : String → Option RuntimeExport

/-- The byte slice returned by `get_memory`:
`slice::from_raw_parts_mut(definition.base, definition.current_length)`,
modelled by its base pointer and length. -/
structure MemSlice where
  base : Nat
  current_length : Nat
deriving DecidableEq

/-- `get_wasi_ctx` from `src/syscalls.rs`: downcast the host state to
`WasiCtx`, failing with `__WASI_EINVAL` when the state is not one. -/
def get_wasi_ctx (vmctx : VMContext) : Except Errno WasiCtx :=
  match vmctx.host_state with
  | some ctx => .ok ctx
  | none => .error __WASI_EINVAL

/-- `get_memory` from `src/syscalls.rs`: look up the global export named
`"memory"`; on a memory export return the slice spanning its current base
and current length, otherwise fail with `__WASI_EINVAL`. -/
def get_memory (vmctx : VMContext) : Except Errno MemSlice :=
  match vmctx.global_exports "memory" with
  | some (.Memory d) => .ok ⟨d.base, d.current_length⟩
  | _ => .error __WASI_EINVAL

/-- The `args_get` trampoline: resolve context, then memory (each failure
returned at once via `ok_or_errno!`), then call `hostcalls::args_get`
(external, passed as `hostcall`). -/
def args_get (hostcall : WasiCtx → MemSlice → Nat → Nat → Errno)
    (vmctx : VMContext) (argv argv_buf : Nat) : Errno :=
  match get_wasi_ctx vmctx with
  | .error e => e
  | .ok wasi_ctx =>
    match get_memory vmctx with
    | .error e => e
    | .ok memory => hostcall wasi_ctx memory argv argv_buf

/-- The `args_sizes_get` trampoline. -/
def args_sizes_get (hostcall : WasiCtx → MemSlice → Nat → Nat → Errno)
    (vmctx : VMContext) (argc argv_buf_size : Nat) : Errno :=
  match get_wasi_ctx vmctx with
  | .error e => e
  | .ok wasi_ctx =>
    match get_memory vmctx with
    | .error e => e
    | .ok memory => hostcall wasi_ctx memory argc argv_buf_size

/-- The `environ_get` trampoline. -/
def environ_get (hostcall : WasiCtx → MemSlice → Nat → Nat → Errno)
    (vmctx : VMContext) (environ environ_buf : Nat) : Errno :=
  match get_wasi_ctx vmctx with
  | .error e => e
  | .ok wasi_ctx =>
    match get_memory vmctx with
    | .error e => e
    | .ok memory => hostcall wasi_ctx memory environ environ_buf

/-- The `environ_sizes_get` trampoline. -/
def environ_sizes_get (hostcall : WasiCtx → MemSlice → Nat → Nat → Errno)
    (vmctx : VMContext) (environ_count environ_buf_size : Nat) : Errno :=
  match get_wasi_ctx vmctx with
  | .error e => e
  | .ok wasi_ctx =>
    match get_memory vmctx with
    | .error e => e
    | .ok memory => hostcall wasi_ctx memory environ_count environ_buf_size

/-- The `fd_read` trampoline. -/
def fd_read (hostcall : WasiCtx → MemSlice → Nat → Nat → Nat → Nat → Errno)
    (vmctx : VMContext) (fd iovs iovs_len nread : Nat) : Errno :=
  match get_wasi_ctx vmctx with
  | .error e => e
  | .ok wasi_ctx =>
    match get_memory vmctx with
    | .error e => e
    | .ok memory => hostcall wasi_ctx memory fd iovs iovs_len nread

/-- The `fd_write` trampoline: rewrite descriptor 2 to 1 before dispatch
(`let fd = if fd == 2 { 1 } else { fd }`), then resolve context, then
memory, then call `hostcalls::fd_write`. -/
def fd_write (hostcall : WasiCtx → MemSlice → Nat → Nat → Nat → Nat → Errno)
    (vmctx : VMContext) (fd iovs iovs_len nwritten : Nat) : Errno :=
  let fd := if fd = 2 then 1 else fd
  match get_wasi_ctx vmctx with
  | .error e => e
  | .ok wasi_ctx =>
    match get_memory vmctx with
    | .error e => e
    | .ok memory => hostcall wasi_ctx memory fd iovs iovs_len nwritten

/-- The `sock_recv` trampoline. -/
def sock_recv
    (hostcall : WasiCtx → MemSlice → Nat → Nat → Nat → Nat → Nat → Nat → Errno)
    (vmctx : VMContext)
    (sock ri_data ri_data_len ri_flags ro_datalen ro_flags : Nat) : Errno :=
  match get_wasi_ctx vmctx with
  | .error e => e
  | .ok wasi_ctx =>
    match get_memory vmctx with
    | .error e => e
    | .ok memory =>
      hostcall wasi_ctx memory sock ri_data ri_data_len ri_flags ro_datalen ro_flags

/-- The `sock_send` trampoline. -/
def sock_send
    (hostcall : WasiCtx → MemSlice → Nat → Nat → Nat → Nat → Nat → Errno)
    (vmctx : VMContext)
    (sock si_data si_data_len si_flags so_datalen : Nat) : Errno :=
  match get_wasi_ctx vmctx with
  | .error e => e
  | .ok wasi_ctx =>
    match get_memory vmctx with
    | .error e => e
    | .ok memory =>
      hostcall wasi_ctx memory sock si_data si_data_len si_flags so_datalen

/-- The `sock_shutdown` trampoline. -/
def sock_shutdown (hostcall : WasiCtx → MemSlice → Nat → Nat → Errno)
    (vmctx : VMContext) (sock how : Nat) : Errno :=
  match get_wasi_ctx vmctx with
  | .error e => e
  | .ok wasi_ctx =>
    match get_memory vmctx with
    | .error e => e
    | .ok memory => hostcall wasi_ctx memory sock how

/-- The `sched_yield` trampoline: calls `hostcalls::sched_yield()` with no
resolution of context or memory; `hostcall` is the external result. -/
def sched_yield (hostcall : Errno) (_vmctx : VMContext) : Errno :=
  hostcall

/-- The `proc_exit` trampoline: calls `hostcalls::proc_exit(rval)` with no
resolution of context or memory and returns `()`. -/
def proc_exit (hostcall : Nat → Unit) (_vmctx : VMContext) (rval : Nat) : Unit :=
  hostcall rval

/-- The `fd_prestat_get` trampoline (unwired): traces and returns
`__WASI_ENOSYS`, with no context or memory resolution. -/
def fd_prestat_get (_vmctx : VMContext) (_fd _buf : Nat) : Errno :=
  __WASI_ENOSYS

/-- The `fd_prestat_dir_name` trampoline (unwired). -/
def fd_prestat_dir_name (_vmctx : VMContext) (_fd _path _path_len : Nat) : Errno :=
  __WASI_ENOSYS

/-- The `fd_datasync` trampoline (unwired). -/
def fd_datasync (_vmctx : VMContext) (_fd : Nat) : Errno :=
  __WASI_ENOSYS

/-- The `fd_pread` trampoline (unwired). -/
def fd_pread (_vmctx : VMContext) (_fd _iovs _iovs_len _offset _nread : Nat) : Errno :=
  __WASI_ENOSYS

/-- The `fd_pwrite` trampoline (unwired). -/
def fd_pwrite (_vmctx : VMContext) (_fd _iovs _iovs_len _offset _nwritten : Nat) : Errno :=
  __WASI_ENOSYS

/-- The `fd_seek` trampoline (unwired); `offset` is the signed
`__wasi_filedelta_t`. -/
def fd_seek (_vmctx : VMContext) (_fd : Nat) (_offset : Int)
    (_whence _newoffset : Nat) : Errno :=
  __WASI_ENOSYS

/-- The `fd_tell` trampoline (unwired). -/
def fd_tell (_vmctx : VMContext) (_fd _newoffset : Nat) : Errno :=
  __WASI_ENOSYS

/-- The `fd_fdstat_get` trampoline (unwired). -/
def fd_fdstat_get (_vmctx : VMContext) (_fd _buf : Nat) : Errno :=
  __WASI_ENOSYS

/-- The `fd_fdstat_set_flags` trampoline (unwired). -/
def fd_fdstat_set_flags (_vmctx : VMContext) (_fd _flags : Nat) : Errno :=
  __WASI_ENOSYS

/-- The `fd_fdstat_set_rights` trampoline (unwired). -/
def fd_fdstat_set_rights (_vmctx : VMContext)
    (_fd _fs_rights_base _fs_rights_inheriting : Nat) : Errno :=
  __WASI_ENOSYS

/-- The `fd_advise` trampoline (unwired). -/
def fd_advise (_vmctx : VMContext) (_fd _offset _len _advice : Nat) : Errno :=
  __WASI_ENOSYS

/-- The `path_create_directory` trampoline (unwired). -/
def path_create_directory (_vmctx : VMContext) (_fd _path _path_len : Nat) : Errno :=
  __WASI_ENOSYS

/-- The `path_link` trampoline (unwired). -/
def path_link (_vmctx : VMContext)
    (_fd0 _flags0 _path0 _path_len0 _fd1 _path1 _path_len1 : Nat) : Errno :=
  __WASI_ENOSYS

/-- The `path_open` trampoline (unwired). -/
def path_open (_vmctx : VMContext)
    (_dirfd _dirflags _path _path_len _oflags _fs_rights_base
      _fs_rights_inheriting _fs_flags _fd : Nat) : Errno :=
  __WASI_ENOSYS

/-- The `fd_readdir` trampoline (unwired). -/
def fd_readdir (_vmctx : VMContext) (_fd _buf _buf_len _cookie _buf_used : Nat) : Errno :=
  __WASI_ENOSYS

/-- The `path_readlink` trampoline (unwired). -/
def path_readlink (_vmctx : VMContext)
    (_fd _path _path_len _buf _buf_len _buf_used : Nat) : Errno :=
  __WASI_ENOSYS

/-- The `path_rename` trampoline (unwired). -/
def path_rename (_vmctx : VMContext)
    (_fd0 _path0 _path_len0 _fd1 _path1 _path_len1 : Nat) : Errno :=
  __WASI_ENOSYS

/-- The `fd_filestat_get` trampoline (unwired). -/
def fd_filestat_get (_vmctx : VMContext) (_fd _buf : Nat) : Errno :=
  __WASI_ENOSYS

/-- The `fd_filestat_set_times` trampoline (unwired). -/
def fd_filestat_set_times (_vmctx : VMContext)
    (_fd _st_atim _st_mtim _fstflags : Nat) : Errno :=
  __WASI_ENOSYS

/-- The `fd_filestat_set_size` trampoline (unwired). -/
def fd_filestat_set_size (_vmctx : VMContext) (_fd _size : Nat) : Errno :=
  __WASI_ENOSYS

/-- The `path_filestat_get` trampoline (unwired). -/
def path_filestat_get (_vmctx : VMContext)
    (_fd _flags _path _path_len _buf : Nat) : Errno :=
  __WASI_ENOSYS

/-- The `path_filestat_set_times` trampoline (unwired). -/
def path_filestat_set_times (_vmctx : VMContext)
    (_fd _flags _path _path_len _st_atim _st_mtim _fstflags : Nat) : Errno :=
  __WASI_ENOSYS

/-- The `path_symlink` trampoline (unwired). -/
def path_symlink (_vmctx : VMContext)
    (_path0 _path_len0 _fd _path1 _path_len1 : Nat) : Errno :=
  __WASI_ENOSYS

/-- The `path_unlink_file` trampoline (unwired). -/
def path_unlink_file (_vmctx : VMContext) (_fd _path _path_len : Nat) : Errno :=
  __WASI_ENOSYS

/-- The `path_remove_directory` trampoline (unwired). -/
def path_remove_directory (_vmctx : VMContext) (_fd _path _path_len : Nat) : Errno :=
  __WASI_ENOSYS

/-- The `proc_raise` trampoline (unwired). -/
def proc_raise (_vmctx : VMContext) (_sig : Nat) : Errno :=
  __WASI_ENOSYS

/-- `wasm32::uintptr_t` (external `wasi-common` type alias): `u32`. -/
def uintptr_t : NativeType := .u32

/-- `wasm32::size_t`: `u32`. -/
def size_t : NativeType := .u32

/-- `wasm32::__wasi_errno_t`: `u16`. -/
def __wasi_errno_t : NativeType := .u16

/-- `wasm32::__wasi_fd_t`: `u32`. -/
def __wasi_fd_t : NativeType := .u32

/-- `wasm32::__wasi_clockid_t`: `u32`. -/
def __wasi_clockid_t : NativeType := .u32

/-- `wasm32::__wasi_timestamp_t`: `u64`. -/
def __wasi_timestamp_t : NativeType := .u64

/-- `wasm32::__wasi_filesize_t`: `u64`. -/
def __wasi_filesize_t : NativeType := .u64

/-- `wasm32::__wasi_filedelta_t`: `i64`. -/
def __wasi_filedelta_t : NativeType := .i64

/-- `wasm32::__wasi_whence_t`: `u8`. -/
def __wasi_whence_t : NativeType := .u8

/-- `wasm32::__wasi_fdflags_t`: `u16`. -/
def __wasi_fdflags_t : NativeType := .u16

/-- `wasm32::__wasi_rights_t`: `u64`. -/
def __wasi_rights_t : NativeType := .u64

/-- `wasm32::__wasi_lookupflags_t`: `u32`. -/
def __wasi_lookupflags_t : NativeType := .u32

/-- `wasm32::__wasi_oflags_t`: `u16`. -/
def __wasi_oflags_t : NativeType := .u16

/-- `wasm32::__wasi_dircookie_t`: `u64`. -/
def __wasi_dircookie_t : NativeType := .u64

/-- `wasm32::__wasi_fstflags_t`: `u16`. -/
def __wasi_fstflags_t : NativeType := .u16

/-- `wasm32::__wasi_advice_t`: `u8`. -/
def __wasi_advice_t : NativeType := .u8

/-- `wasm32::__wasi_signal_t`: `u8`. -/
def __wasi_signal_t : NativeType := .u8

/-- `wasm32::__wasi_riflags_t`: `u16`. -/
def __wasi_riflags_t : NativeType := .u16

/-- `wasm32::__wasi_siflags_t`: `u16`. -/
def __wasi_siflags_t : NativeType := .u16

/-- `wasm32::__wasi_sdflags_t`: `u8`. -/
def __wasi_sdflags_t : NativeType := .u8

/-- An operation descriptor: name, the declared native parameter types
(the `vmctx` pointer excluded, as in the `syscalls!` macro), and the
native return type. -/
structure OperationDescriptor where
  name : String
  params : List NativeType
  ret : RetType
deriving DecidableEq

/-- `params()` of the generated per-operation module: the `codegen_ty()`
of each declared parameter type, in order. -/
def signatureParams (d : OperationDescriptor) : List WordTy :=
  d.params.map NativeType.codegen_ty

/-- `results()` of the generated per-operation module: the
`codegen_tys()` of the declared return type. -/
def signatureResults (d : OperationDescriptor) : List WordTy :=
  d.ret.codegen_tys

/-- The word types the generated shim decodes: the `Abi` associated type
of each declared parameter type, in order
(`shim` receives `<$ty as AbiParam>::Abi` per argument). -/
def shimParamWords (d : OperationDescriptor) : List WordTy :=
  d.params.map NativeType.abiWord

/-- The word types the generated shim encodes:
`<$ret as AbiRet>::Abi` of the declared return type. -/
def shimResultWords (d : OperationDescriptor) : List WordTy :=
  d.ret.abiWords

/-- The operations registered by `instantiate_wasi` (the `signature!`
invocations in `src/instantiate.rs`, in order), each with the parameter
and return types declared in the `syscalls!` block of `src/syscalls.rs`. -/
def registeredOps : List OperationDescriptor :=
  [⟨"args_get", [uintptr_t, uintptr_t], .native __wasi_errno_t⟩,
   ⟨"args_sizes_get", [uintptr_t, uintptr_t], .native __wasi_errno_t⟩,
   ⟨"environ_get", [uintptr_t, uintptr_t], .native __wasi_errno_t⟩,
   ⟨"environ_sizes_get", [uintptr_t, uintptr_t], .native __wasi_errno_t⟩,
   ⟨"fd_allocate", [__wasi_fd_t, __wasi_filesize_t, __wasi_filesize_t],
     .native __wasi_errno_t⟩,
   ⟨"clock_res_get", [__wasi_clockid_t, uintptr_t], .native __wasi_errno_t⟩,
   ⟨"clock_time_get", [__wasi_clockid_t, __wasi_timestamp_t, uintptr_t],
     .native __wasi_errno_t⟩,
   ⟨"fd_close", [__wasi_fd_t], .native __wasi_errno_t⟩,
   ⟨"fd_read", [__wasi_fd_t, uintptr_t, size_t, uintptr_t], .native __wasi_errno_t⟩,
   ⟨"fd_renumber", [__wasi_fd_t, __wasi_fd_t], .native __wasi_errno_t⟩,
   ⟨"fd_sync", [__wasi_fd_t], .native __wasi_errno_t⟩,
   ⟨"fd_write", [__wasi_fd_t, uintptr_t, size_t, uintptr_t], .native __wasi_errno_t⟩,
   ⟨"poll_oneoff", [uintptr_t, uintptr_t, size_t, uintptr_t], .native __wasi_errno_t⟩,
   ⟨"proc_exit", [.u32], .unit⟩,
   ⟨"random_get", [uintptr_t, size_t], .native __wasi_errno_t⟩,
   ⟨"sched_yield", [], .native __wasi_errno_t⟩,
   ⟨"sock_recv",
     [__wasi_fd_t, uintptr_t, size_t, __wasi_riflags_t, uintptr_t, uintptr_t],
     .native __wasi_errno_t⟩,
   ⟨"sock_send", [__wasi_fd_t, uintptr_t, size_t, __wasi_siflags_t, uintptr_t],
     .native __wasi_errno_t⟩,
   ⟨"sock_shutdown", [__wasi_fd_t, __wasi_sdflags_t], .native __wasi_errno_t⟩,
   ⟨"fd_prestat_get", [__wasi_fd_t, uintptr_t], .native __wasi_errno_t⟩,
   ⟨"fd_prestat_dir_name", [__wasi_fd_t, uintptr_t, size_t], .native __wasi_errno_t⟩,
   ⟨"fd_datasync", [__wasi_fd_t], .native __wasi_errno_t⟩,
   ⟨"fd_pread", [__wasi_fd_t, uintptr_t, size_t, __wasi_filesize_t, uintptr_t],
     .native __wasi_errno_t⟩,
   ⟨"fd_pwrite", [__wasi_fd_t, uintptr_t, size_t, __wasi_filesize_t, uintptr_t],
     .native __wasi_errno_t⟩,
   ⟨"fd_seek", [__wasi_fd_t, __wasi_filedelta_t, __wasi_whence_t, uintptr_t],
     .native __wasi_errno_t⟩,
   ⟨"fd_tell", [__wasi_fd_t, uintptr_t], .native __wasi_errno_t⟩,
   ⟨"fd_fdstat_get", [__wasi_fd_t, uintptr_t], .native __wasi_errno_t⟩,
   ⟨"fd_fdstat_set_flags", [__wasi_fd_t, __wasi_fdflags_t], .native __wasi_errno_t⟩,
   ⟨"fd_fdstat_set_rights", [__wasi_fd_t, __wasi_rights_t, __wasi_rights_t],
     .native __wasi_errno_t⟩,
   ⟨"fd_advise",
     [__wasi_fd_t, __wasi_filesize_t, __wasi_filesize_t, __wasi_advice_t],
     .native __wasi_errno_t⟩,
   ⟨"path_create_directory", [__wasi_fd_t, uintptr_t, size_t], .native __wasi_errno_t⟩,
   ⟨"path_link",
     [__wasi_fd_t, __wasi_lookupflags_t, uintptr_t, size_t, __wasi_fd_t,
       uintptr_t, size_t],
     .native __wasi_errno_t⟩,
   ⟨"path_open",
     [__wasi_fd_t, __wasi_lookupflags_t, uintptr_t, size_t, __wasi_oflags_t,
       __wasi_rights_t, __wasi_rights_t, __wasi_fdflags_t, uintptr_t],
     .native __wasi_errno_t⟩,
   ⟨"fd_readdir",
     [__wasi_fd_t, uintptr_t, size_t, __wasi_dircookie_t, uintptr_t],
     .native __wasi_errno_t⟩,
   ⟨"path_readlink",
     [__wasi_fd_t, uintptr_t, size_t, uintptr_t, size_t, uintptr_t],
     .native __wasi_errno_t⟩,
   ⟨"path_rename",
     [__wasi_fd_t, uintptr_t, size_t, __wasi_fd_t, uintptr_t, size_t],
     .native __wasi_errno_t⟩,
   ⟨"fd_filestat_get", [__wasi_fd_t, uintptr_t], .native __wasi_errno_t⟩,
   ⟨"fd_filestat_set_times",
     [__wasi_fd_t, __wasi_timestamp_t, __wasi_timestamp_t, __wasi_fstflags_t],
     .native __wasi_errno_t⟩,
   ⟨"fd_filestat_set_size", [__wasi_fd_t, __wasi_filesize_t], .native __wasi_errno_t⟩,
   ⟨"path_filestat_get",
     [__wasi_fd_t, __wasi_lookupflags_t, uintptr_t, size_t, uintptr_t],
     .native __wasi_errno_t⟩,
   ⟨"path_filestat_set_times",
     [__wasi_fd_t, __wasi_lookupflags_t, uintptr_t, size_t, __wasi_timestamp_t,
       __wasi_timestamp_t, __wasi_fstflags_t],
     .native __wasi_errno_t⟩,
   ⟨"path_symlink", [uintptr_t, size_t, __wasi_fd_t, uintptr_t, size_t],
     .native __wasi_errno_t⟩,
   ⟨"path_unlink_file", [__wasi_fd_t, uintptr_t, size_t], .native __wasi_errno_t⟩,
   ⟨"path_remove_directory", [__wasi_fd_t, uintptr_t, size_t], .native __wasi_errno_t⟩,
   ⟨"proc_raise", [__wasi_signal_t], .native __wasi_errno_t⟩]

/-- An open native file handle (`std::fs::File`), modelled as a token. -/
structure File where
  id : Nat
deriving DecidableEq

/-- The capability-context builder (`WasiCtxBuilder` of the external
`wasi-common` crate), modelled by the pre-opened pairs registered so far. -/
structure WasiCtxBuilder where
  preopens : List (String × File)
deriving DecidableEq

/-- The instantiated handle (`wasmtime_runtime::InstanceHandle`), modelled
as a token. -/
structure InstanceHandle where
  id : Nat
deriving DecidableEq

/-- `wasmtime_runtime::InstantiationError`, restricted to the variants the
assembler produces or propagates. -/
inductive InstantiationError
  | Resource (msg : String)
  | Other (msg : String)
deriving DecidableEq

/-- The pre-open loop of `instantiate_wasi`: for each `(dir, f)` pair,
`f.try_clone()` (external, passed as `try_clone`); a clone failure is
mapped to a `Resource` error with the source's message and returned at
once; a success is registered via `builder.preopened_dir(clone, dir)`
(external, passed as `preopened_dir_step`). -/
def clonePreopens (try_clone : File → Except String File)
    (preopened_dir_step : WasiCtxBuilder → File → String → WasiCtxBuilder) :
    WasiCtxBuilder → List (String × File) → Except InstantiationError WasiCtxBuilder
  | b, [] => .ok b
  | b, (dir, f) :: rest =>
    match try_clone f with
    | .error err =>
      .error (.Resource ("couldn't clone an instance handle to pre-opened dir: " ++ err))
    | .ok g => clonePreopens try_clone preopened_dir_step (preopened_dir_step b g dir) rest

/-- `instantiate_wasi` from `src/instantiate.rs`, its fallible part.
External collaborators are parameters: `ctx_steps` is the result of the
`WasiCtxBuilder::new().inherit_stdio().args(argv).envs(environ)` chain,
`build` is `WasiCtxBuilder::build`, and `new_instance` is
`InstanceHandle::new` applied to the assembled module (the registered
operations) and the built context. A failed builder chain or a failed
build is mapped to a `Resource` error with the source's message; any
failure aborts and no handle is produced. -/
def instantiate_wasi
    (ctx_steps : Except String WasiCtxBuilder)
    (try_clone : File → Except String File)
    (preopened_dir_step : WasiCtxBuilder → File → String → WasiCtxBuilder)
    (build : WasiCtxBuilder → Except String WasiCtx)
    (new_instance : List OperationDescriptor → WasiCtx →
      Except InstantiationError InstanceHandle)
    (preopened_dirs : List (String × File)) :
    Except InstantiationError InstanceHandle :=
  match ctx_steps with
  | .error err =>
    .error (.Resource ("couldn't assemble WASI context object: " ++ err))
  | .ok b0 =>
    match clonePreopens try_clone preopened_dir_step b0 preopened_dirs with
    | .error e => .error e
    | .ok b =>
      match build b with
      | .error err =>
        .error (.Resource ("couldn't assemble WASI context object: " ++ err))
      | .ok wasi_ctx => new_instance registeredOps wasi_ctx

/-- Helper: the result of `clonePreopens` depends on the argument word only
through nothing — every `try_clone` failure among the supplied pairs forces
a `Resource`-class error from the loop. -/
theorem clonePreopens_error_of_clone_failure
    (try_clone : File → Except String File)
    (step : WasiCtxBuilder → File → String → WasiCtxBuilder) :
    ∀ (dirs : List (String × File)) (b : WasiCtxBuilder),
      (∃ p ∈ dirs, ∃ err, try_clone p.2 = .error err) →
      ∃ msg, clonePreopens try_clone step b dirs = .error (.Resource msg) := by
  intro dirs
  induction dirs with
  | nil =>
    rintro b ⟨p, hp, -⟩
    exact absurd hp (List.not_mem_nil p)
  | cons hd tl ih =>
    rintro b ⟨p, hp, err, herr⟩
    obtain ⟨dir, f⟩ := hd
    cases hc : try_clone f with
    | error e2 =>
      exact ⟨"couldn't clone an instance handle to pre-opened dir: " ++ e2,
        by simp [clonePreopens, hc]⟩
    | ok g =>
      rcases List.mem_cons.mp hp with heq | hm
      · subst heq
        rw [hc] at herr
        cases herr
      · obtain ⟨msg, hmsg⟩ := ih (step b g dir) ⟨p, hm, err, herr⟩
        exact ⟨msg, by simp [clonePreopens, hc, hmsg]⟩

/-- Claim C1: in the `fd_write` trampoline, a file-descriptor argument equal
to 2 is rewritten to 1 before the underlying write implementation
(`hostcalls::fd_write`, here `hostcall`) is invoked, any other descriptor
is passed through unchanged, and the trampoline's result is exactly the
underlying implementation's result — the rewrite is not reported to the
guest as an error. -/
theorem C1_fd_write_redirect
    (hostcall : WasiCtx → MemSlice → Nat → Nat → Nat → Nat → Errno)
    (vmctx : VMContext) (fd iovs iovs_len nwritten : Nat)
    (wasi_ctx : WasiCtx) (memory : MemSlice)
    (hctx : get_wasi_ctx vmctx = .ok wasi_ctx)
    (hmem : get_memory vmctx = .ok memory) :
    fd_write hostcall vmctx fd iovs iovs_len nwritten =
      hostcall wasi_ctx memory (if fd = 2 then 1 else fd) iovs iovs_len nwritten := by
  simp only [fd_write, hctx, hmem]

/-- Witness for C1 at a concrete instance: with an underlying write that
returns the descriptor it was handed, a guest write to descriptor 2 is
observed by the implementation on descriptor 1. -/
theorem C1_fd_write_redirect_witness :
    fd_write (fun _ _ fdv _ _ _ => fdv)
      ⟨some ⟨7⟩, fun s => if s = "memory" then some (.Memory ⟨0, 4⟩) else none⟩
      2 0 0 0 = 1 := by
  have h := C1_fd_write_redirect (fun _ _ fdv _ _ _ => fdv)
    ⟨some ⟨7⟩, fun s => if s = "memory" then some (.Memory ⟨0, 4⟩) else none⟩
    2 0 0 0 ⟨7⟩ ⟨0, 4⟩ (by simp [get_wasi_ctx]) (by simp [get_memory])
  simpa using h

/-- Claim C2: for every native scalar type given an ABI conversion by the
`cast32!`/`cast64!` macros and every representable value `x` of that type
(the minimum and maximum included), decoding the encoding of `x` yields `x`
back: `AbiParam::convert(AbiRet::convert(x)) == x`. -/
theorem C2_abi_roundtrip (t : NativeType) (x : Int) (hx : t.inRange x) :
    abiParamConvert t (abiRetConvert t x) = x := by
  obtain ⟨h1, h2⟩ := hx
  cases t <;>
    simp only [NativeType.minVal, NativeType.maxVal, abiParamConvert, abiRetConvert,
      NativeType.width, NativeType.sgn, asCast] at * <;>
    norm_num at * <;>
    split_ifs <;> omega

/-- Witness for C2 at the extreme values of a signed and an unsigned type:
the minimum of `i8` and the maximum of `u64` both round-trip. -/
theorem C2_abi_roundtrip_witness :
    NativeType.inRange .i8 (-128) ∧
    NativeType.inRange .u64 18446744073709551615 ∧
    abiParamConvert .i8 (abiRetConvert .i8 (-128)) = -128 ∧
    abiParamConvert .u64 (abiRetConvert .u64 18446744073709551615) =
      18446744073709551615 :=
  ⟨by decide, by decide,
   C2_abi_roundtrip .i8 (-128) (by decide),
   C2_abi_roundtrip .u64 18446744073709551615 (by decide)⟩

/-- Claim C3: for every operation registered by `instantiate_wasi`, the
guest word types produced by the signature synthesizer (`params()` and
`results()`) exactly match, in count and in each position's width, the ABI
words the generated trampoline shim decodes and encodes. -/
theorem C3_signature_matches_shim :
    ∀ d ∈ registeredOps,
      signatureParams d = shimParamWords d ∧ signatureResults d = shimResultWords d := by
  have hfun : NativeType.codegen_ty = NativeType.abiWord :=
    funext (fun t => by cases t <;> rfl)
  intro d _
  refine ⟨?_, ?_⟩
  · simp only [signatureParams, shimParamWords, hfun]
  · simp only [signatureResults, shimResultWords]
    cases d.ret with
    | unit => rfl
    | native t => simp only [RetType.codegen_tys, RetType.abiWords, hfun]

/-- Witness for C3 at the `fd_write` descriptor of the registry. -/
theorem C3_signature_matches_shim_witness :
    signatureParams ⟨"fd_write", [__wasi_fd_t, uintptr_t, size_t, uintptr_t],
        .native __wasi_errno_t⟩ =
      shimParamWords ⟨"fd_write", [__wasi_fd_t, uintptr_t, size_t, uintptr_t],
        .native __wasi_errno_t⟩ ∧
    signatureResults ⟨"fd_write", [__wasi_fd_t, uintptr_t, size_t, uintptr_t],
        .native __wasi_errno_t⟩ =
      shimResultWords ⟨"fd_write", [__wasi_fd_t, uintptr_t, size_t, uintptr_t],
        .native __wasi_errno_t⟩ :=
  C3_signature_matches_shim
    ⟨"fd_write", [__wasi_fd_t, uintptr_t, size_t, uintptr_t], .native __wasi_errno_t⟩
    (by decide)

/-- Claim C4: every trampoline whose native implementation is not wired
returns `__WASI_ENOSYS` for every instance handle (context and memory are
never resolved, so the result is uniform even on handles with no attached
state and no memory export) and for every combination of argument values,
boundary values included. -/
theorem C4_unwired_return_enosys :
    (∀ vmctx fd buf, fd_prestat_get vmctx fd buf = __WASI_ENOSYS) ∧
    (∀ vmctx fd path path_len,
      fd_prestat_dir_name vmctx fd path path_len = __WASI_ENOSYS) ∧
    (∀ vmctx fd, fd_datasync vmctx fd = __WASI_ENOSYS) ∧
    (∀ vmctx fd iovs iovs_len offset nread,
      fd_pread vmctx fd iovs iovs_len offset nread = __WASI_ENOSYS) ∧
    (∀ vmctx fd iovs iovs_len offset nwritten,
      fd_pwrite vmctx fd iovs iovs_len offset nwritten = __WASI_ENOSYS) ∧
    (∀ vmctx fd offset whence newoffset,
      fd_seek vmctx fd offset whence newoffset = __WASI_ENOSYS) ∧
    (∀ vmctx fd newoffset, fd_tell vmctx fd newoffset = __WASI_ENOSYS) ∧
    (∀ vmctx fd buf, fd_fdstat_get vmctx fd buf = __WASI_ENOSYS) ∧
    (∀ vmctx fd flags, fd_fdstat_set_flags vmctx fd flags = __WASI_ENOSYS) ∧
    (∀ vmctx fd rb ri, fd_fdstat_set_rights vmctx fd rb ri = __WASI_ENOSYS) ∧
    (∀ vmctx fd offset len advice, fd_advise vmctx fd offset len advice = __WASI_ENOSYS) ∧
    (∀ vmctx fd path path_len,
      path_create_directory vmctx fd path path_len = __WASI_ENOSYS) ∧
    (∀ vmctx fd0 flags0 path0 pl0 fd1 path1 pl1,
      path_link vmctx fd0 flags0 path0 pl0 fd1 path1 pl1 = __WASI_ENOSYS) ∧
    (∀ vmctx dirfd dirflags path path_len oflags rb ri fsflags fd,
      path_open vmctx dirfd dirflags path path_len oflags rb ri fsflags fd
        = __WASI_ENOSYS) ∧
    (∀ vmctx fd buf buf_len cookie buf_used,
      fd_readdir vmctx fd buf buf_len cookie buf_used = __WASI_ENOSYS) ∧
    (∀ vmctx fd path path_len buf buf_len buf_used,
      path_readlink vmctx fd path path_len buf buf_len buf_used = __WASI_ENOSYS) ∧
    (∀ vmctx fd0 path0 pl0 fd1 path1 pl1,
      path_rename vmctx fd0 path0 pl0 fd1 path1 pl1 = __WASI_ENOSYS) ∧
    (∀ vmctx fd buf, fd_filestat_get vmctx fd buf = __WASI_ENOSYS) ∧
    (∀ vmctx fd ta tm ff, fd_filestat_set_times vmctx fd ta tm ff = __WASI_ENOSYS) ∧
    (∀ vmctx fd size, fd_filestat_set_size vmctx fd size = __WASI_ENOSYS) ∧
    (∀ vmctx fd flags path path_len buf,
      path_filestat_get vmctx fd flags path path_len buf = __WASI_ENOSYS) ∧
    (∀ vmctx fd flags path path_len ta tm ff,
      path_filestat_set_times vmctx fd flags path path_len ta tm ff = __WASI_ENOSYS) ∧
    (∀ vmctx path0 pl0 fd path1 pl1,
      path_symlink vmctx path0 pl0 fd path1 pl1 = __WASI_ENOSYS) ∧
    (∀ vmctx fd path path_len, path_unlink_file vmctx fd path path_len = __WASI_ENOSYS) ∧
    (∀ vmctx fd path path_len,
      path_remove_directory vmctx fd path path_len = __WASI_ENOSYS) ∧
    (∀ vmctx sig, proc_raise vmctx sig = __WASI_ENOSYS) := by
  and_intros <;> intros <;> rfl

/-- Claim C5: `get_wasi_ctx` is total and deterministic — it returns
`__WASI_EINVAL` exactly when the handle carries no attached `WasiCtx`
state, and the attached state otherwise; `get_memory` returns
`__WASI_EINVAL` exactly when there is no export named `"memory"` or that
export is not a memory export, and otherwise returns the slice spanning
exactly the memory's current base pointer and current byte length. -/
theorem C5_resolvers_total (vmctx : VMContext) :
    (vmctx.host_state = none → get_wasi_ctx vmctx = .error __WASI_EINVAL) ∧
    (∀ ctx, vmctx.host_state = some ctx → get_wasi_ctx vmctx = .ok ctx) ∧
    ((∀ d, vmctx.global_exports "memory" ≠ some (.Memory d)) →
      get_memory vmctx = .error __WASI_EINVAL) ∧
    (∀ d, vmctx.global_exports "memory" = some (.Memory d) →
      get_memory vmctx = .ok ⟨d.base, d.current_length⟩) := by
  refine ⟨fun h => by simp [get_wasi_ctx, h],
    fun ctx h => by simp [get_wasi_ctx, h], ?_, fun d h => by simp [get_memory, h]⟩
  intro h
  unfold get_memory
  cases hx : vmctx.global_exports "memory" with
  | none => rfl
  | some e =>
    cases e with
    | Memory d => exact absurd hx (h d)
    | Other => rfl

/-- Witness for C5 on a handle with no attached state and no exports:
both resolvers return the "invalid argument" signal. -/
theorem C5_resolvers_total_witness :
    get_wasi_ctx ⟨none, fun _ => none⟩ = .error __WASI_EINVAL ∧
    get_memory ⟨none, fun _ => none⟩ = .error __WASI_EINVAL :=
  ⟨(C5_resolvers_total ⟨none, fun _ => none⟩).1 rfl,
   (C5_resolvers_total ⟨none, fun _ => none⟩).2.2.1 (fun _ h => Option.noConfusion h)⟩

/-- Claim C6: in every trampoline that requires both the capability context
and guest memory, the context is resolved before the memory; the first
resolution failure is returned to the guest verbatim without invoking the
external operation implementation (the result is the failure signal for
every possible implementation, and a context failure is decisive with no
assumption on the memory export); when both resolutions succeed, the
trampoline's result is exactly the external implementation's result,
never reinterpreted or wrapped. -/
theorem C6_short_circuit_order (vmctx : VMContext) :
    (∀ e, get_wasi_ctx vmctx = .error e →
      (∀ hc argv argv_buf, args_get hc vmctx argv argv_buf = e) ∧
      (∀ hc argc sz, args_sizes_get hc vmctx argc sz = e) ∧
      (∀ hc a b, environ_get hc vmctx a b = e) ∧
      (∀ hc a b, environ_sizes_get hc vmctx a b = e) ∧
      (∀ hc fd iovs n r, fd_read hc vmctx fd iovs n r = e) ∧
      (∀ hc fd iovs n w, fd_write hc vmctx fd iovs n w = e) ∧
      (∀ hc s a b c d f, sock_recv hc vmctx s a b c d f = e) ∧
      (∀ hc s a b c d, sock_send hc vmctx s a b c d = e) ∧
      (∀ hc s how, sock_shutdown hc vmctx s how = e)) ∧
    (∀ ctx e, get_wasi_ctx vmctx = .ok ctx → get_memory vmctx = .error e →
      (∀ hc argv argv_buf, args_get hc vmctx argv argv_buf = e) ∧
      (∀ hc argc sz, args_sizes_get hc vmctx argc sz = e) ∧
      (∀ hc a b, environ_get hc vmctx a b = e) ∧
      (∀ hc a b, environ_sizes_get hc vmctx a b = e) ∧
      (∀ hc fd iovs n r, fd_read hc vmctx fd iovs n r = e) ∧
      (∀ hc fd iovs n w, fd_write hc vmctx fd iovs n w = e) ∧
      (∀ hc s a b c d f, sock_recv hc vmctx s a b c d f = e) ∧
      (∀ hc s a b c d, sock_send hc vmctx s a b c d = e) ∧
      (∀ hc s how, sock_shutdown hc vmctx s how = e)) ∧
    (∀ ctx mem, get_wasi_ctx vmctx = .ok ctx → get_memory vmctx = .ok mem →
      (∀ hc argv argv_buf, args_get hc vmctx argv argv_buf = hc ctx mem argv argv_buf) ∧
      (∀ hc argc sz, args_sizes_get hc vmctx argc sz = hc ctx mem argc sz) ∧
      (∀ hc a b, environ_get hc vmctx a b = hc ctx mem a b) ∧
      (∀ hc a b, environ_sizes_get hc vmctx a b = hc ctx mem a b) ∧
      (∀ hc fd iovs n r, fd_read hc vmctx fd iovs n r = hc ctx mem fd iovs n r) ∧
      (∀ hc fd iovs n w, fd_write hc vmctx fd iovs n w =
        hc ctx mem (if fd = 2 then 1 else fd) iovs n w) ∧
      (∀ hc s a b c d f, sock_recv hc vmctx s a b c d f = hc ctx mem s a b c d f) ∧
      (∀ hc s a b c d, sock_send hc vmctx s a b c d = hc ctx mem s a b c d) ∧
      (∀ hc s how, sock_shutdown hc vmctx s how = hc ctx mem s how)) := by
  refine ⟨fun e he => ?_, fun ctx e hctx hmem => ?_, fun ctx mem hctx hmem => ?_⟩ <;>
    and_intros <;> intros <;>
    simp only [args_get, args_sizes_get, environ_get, environ_sizes_get, fd_read,
      fd_write, sock_recv, sock_send, sock_shutdown, *]

/-- Witness for C6 on a handle with no attached state: the `args_get`
trampoline returns the context resolver's failure for an arbitrary
external implementation. -/
theorem C6_short_circuit_order_witness :
    args_get (fun _ _ _ _ => 0) ⟨none, fun _ => none⟩ 3 4 = __WASI_EINVAL :=
  ((C6_short_circuit_order ⟨none, fun _ => none⟩).1 __WASI_EINVAL rfl).1
    (fun _ _ _ _ => 0) 3 4

/-- Claim C7: the ABI word-type mapping is a total function of the native
type — every native integer type of width at most 32 has codegen type
`I32`, every 64-bit native integer type has codegen type `I64`, and the
unit return type has an empty codegen-type list; the conversions
themselves (`abiRetConvert`, `abiParamConvert`) are total functions, so
no conversion in either direction can fail. -/
theorem C7_codegen_mapping_total :
    (∀ t : NativeType,
      t.codegen_ty = if t.width ≤ 32 then WordTy.I32 else WordTy.I64) ∧
    RetType.codegen_tys .unit = [] := by
  exact ⟨by decide, rfl⟩

/-- Claim C9: for every native type narrower than its 32-bit ABI word,
decoding keeps only the low `width` bits of the word — the decoded value
depends only on the word modulo `2 ^ width` — and consequently decoding is
not injective on the full 32-bit word space: two distinct words below
`2 ^ 32` decode to the same native value. -/
theorem C9_narrow_decode_low_bits (t : NativeType) (ht : t.width < 32) :
    (∀ p q : Int, p % 2 ^ t.width = q % 2 ^ t.width →
      abiParamConvert t p = abiParamConvert t q) ∧
    (∀ p : Int, abiParamConvert t p = abiParamConvert t (p % 2 ^ t.width)) ∧
    (∃ p q : Int, 0 ≤ p ∧ p < 2 ^ 32 ∧ 0 ≤ q ∧ q < 2 ^ 32 ∧ p ≠ q ∧
      abiParamConvert t p = abiParamConvert t q) := by
  have hcong : ∀ p q : Int, p % 2 ^ t.width = q % 2 ^ t.width →
      abiParamConvert t p = abiParamConvert t q := by
    intro p q h
    simp only [abiParamConvert, asCast]
    rw [h]
  refine ⟨hcong, fun p => hcong _ _ (Int.emod_emod_of_dvd p dvd_rfl).symm, ?_⟩
  refine ⟨0, 2 ^ t.width, le_refl 0, by positivity, by positivity, ?_, ?_, ?_⟩
  · exact pow_lt_pow_right₀ one_lt_two ht
  · exact (pow_pos (by norm_num) t.width).ne
  · exact hcong _ _ (by simp)

/-- Witness for C9 at `u8`: the distinct 32-bit words 0 and 256 decode to
the same native argument. -/
theorem C9_narrow_decode_low_bits_witness :
    abiParamConvert .u8 0 = abiParamConvert .u8 256 :=
  (C9_narrow_decode_low_bits .u8 (by decide)).1 0 256 (by decide)

/-- Claim C10: the `sched_yield` and `proc_exit` trampolines never resolve
the capability context or guest memory — for every instance handle,
including one with no attached state and no memory export, `sched_yield`
returns exactly the external implementation's result (so it yields the
resolvers' `__WASI_EINVAL` signal only when the implementation itself
does), the result is independent of the handle, and `proc_exit` returns
the unit value of the external implementation. -/
theorem C10_no_resolution :
    (∀ hostcall vmctx, sched_yield hostcall vmctx = hostcall) ∧
    (∀ hostcall vmctx vmctx',
      sched_yield hostcall vmctx = sched_yield hostcall vmctx') ∧
    (∀ hostcall vmctx,
      sched_yield hostcall vmctx = __WASI_EINVAL ↔ hostcall = __WASI_EINVAL) ∧
    (∀ hostcall vmctx rval, proc_exit hostcall vmctx rval = hostcall rval) :=
  ⟨fun _ _ => rfl, fun _ _ _ => rfl, fun _ _ => Iff.rfl, fun _ _ _ => rfl⟩

/-- Claim C8: during module assembly, a failure to assemble the capability
context (the builder chain), a failure to duplicate any supplied
pre-opened directory handle, or a failure to finalize the context
(`build`) yields a `Resource`-class error carrying the source's
descriptive message to the caller, and aborts the instantiation entirely:
an instance handle is returned only when every one of those steps
succeeded. -/
theorem C8_construction_failure_aborts
    (ctx_steps : Except String WasiCtxBuilder)
    (try_clone : File → Except String File)
    (preopened_dir_step : WasiCtxBuilder → File → String → WasiCtxBuilder)
    (build : WasiCtxBuilder → Except String WasiCtx)
    (new_instance : List OperationDescriptor → WasiCtx →
      Except InstantiationError InstanceHandle)
    (preopened_dirs : List (String × File)) :
    (∀ err, ctx_steps = .error err →
      instantiate_wasi ctx_steps try_clone preopened_dir_step build new_instance
          preopened_dirs
        = .error (.Resource ("couldn't assemble WASI context object: " ++ err))) ∧
    (∀ b0, ctx_steps = .ok b0 →
      (∃ p ∈ preopened_dirs, ∃ err, try_clone p.2 = .error err) →
      ∃ msg, instantiate_wasi ctx_steps try_clone preopened_dir_step build new_instance
          preopened_dirs
        = .error (.Resource msg)) ∧
    (∀ b0 b, ctx_steps = .ok b0 →
      clonePreopens try_clone preopened_dir_step b0 preopened_dirs = .ok b →
      ∀ err, build b = .error err →
      instantiate_wasi ctx_steps try_clone preopened_dir_step build new_instance
          preopened_dirs
        = .error (.Resource ("couldn't assemble WASI context object: " ++ err))) ∧
    (∀ h, instantiate_wasi ctx_steps try_clone preopened_dir_step build new_instance
          preopened_dirs = .ok h →
      ∃ b0 b ctx, ctx_steps = .ok b0 ∧
        clonePreopens try_clone preopened_dir_step b0 preopened_dirs = .ok b ∧
        build b = .ok ctx ∧ new_instance registeredOps ctx = .ok h) := by
  refine ⟨fun err he => by simp [instantiate_wasi, he], ?_, ?_, ?_⟩
  · intro b0 hb0 hfail
    obtain ⟨msg, hmsg⟩ :=
      clonePreopens_error_of_clone_failure try_clone preopened_dir_step
        preopened_dirs b0 hfail
    exact ⟨msg, by simp [instantiate_wasi, hb0, hmsg]⟩
  · intro b0 b hb0 hcl err hbuild
    simp [instantiate_wasi, hb0, hcl, hbuild]
  · intro h hok
    unfold instantiate_wasi at hok
    split at hok
    · cases hok
    · rename_i _discr b0
      split at hok
      · cases hok
      · rename_i b hcl
        split at hok
        · cases hok
        · rename_i ctx hbuild
          exact ⟨b0, b, ctx, rfl, hcl, hbuild, hok⟩

/-- Witness for C8: a failed builder chain aborts instantiation with the
descriptive `Resource` error, irrespective of the remaining collaborators. -/
theorem C8_construction_failure_aborts_witness :
    instantiate_wasi (.error "no fds") (fun f => .ok f) (fun b _ _ => b)
      (fun _ => .ok ⟨0⟩) (fun _ _ => .ok ⟨0⟩) []
      = .error (.Resource ("couldn't assemble WASI context object: " ++ "no fds")) :=
  (C8_construction_failure_aborts (.error "no fds") (fun f => .ok f) (fun b _ _ => b)
    (fun _ => .ok ⟨0⟩) (fun _ _ => .ok ⟨0⟩) []).1 "no fds" rfl

end EnarxWasi

